import Mathlib

/-!
Verification of the run-lifecycle state-synchronization and diff-rendering
layer of the NoCodeBench operator console frontend.

The embedding below models, directly from the JavaScript source:

- `PatchViewer` / `classifyLine` — the diff classifier of
  `frontend/src/components/TaskDetail.jsx` (lines 6-33);
- `TDState` and the handlers `fetchLatestResult`, `fetchSummaryReport`,
  `selectionEffect`, `handleRun`, the tab-button click handlers and the
  render guards of the `TaskDetail` component;
- a trace machine `tdStep` for the interleaving of selection changes with
  asynchronously resolving fetches (the component's effect on `task.id`
  plus the continuations of the in-flight fetches);
- `PollState` / `pollStep` — the `BatchControl` component's status-polling
  interval and the continuations of `fetchStatus`;
- `RunState` / `runStep` — the busy-flag lifecycle of `handleRun` together
  with the `disabled={running}` run button.

JavaScript string primitives are re-expressed over `List Char` so that every
definition evaluates inside the kernel.
-/

namespace NCB

/-- JS `s.startsWith(p)`, expressed over the character lists of the strings. -/
def strStartsWith (s p : String) : Bool := p.data.isPrefixOf s.data

/-- JS `s.split('\n')`: split on every newline character. -/
def splitLines (s : String) : List String :=
  (s.data.splitOn '\n').map List.asString

/-- JS truthiness of a string value: falsy exactly when empty. -/
def jsTruthy (s : String) : Bool := !(s = "")

/-- Line categories produced by the diff classifier (the CSS class suffix
chosen in `PatchViewer`); a line matching none of the four tests keeps the
bare `diff-line` class, modelled as `context`. -/
inductive LineKind where
  | header : LineKind
  | fileHeader : LineKind
  | add : LineKind
  | remove : LineKind
  | context : LineKind
  deriving DecidableEq

/-- Classification of one diff line, translated from the prefix-test chain in
`PatchViewer` (TaskDetail.jsx lines 15-23). -/
def classifyLine (line : String) : LineKind :=
  if strStartsWith line "@@" then LineKind.header
  else if strStartsWith line "+++" || strStartsWith line "---" then LineKind.fileHeader
  else if strStartsWith line "+" then LineKind.add
  else if strStartsWith line "-" then LineKind.remove
  else LineKind.context

/-- Rendering outcome of `PatchViewer`: either the `"No patch generated"`
sentinel or the classified lines. -/
inductive PatchView where
  | noPatch : PatchView
  | diffLines : List (String × LineKind) → PatchView
  deriving DecidableEq

/-- The `PatchViewer` component (TaskDetail.jsx lines 6-33). The argument is
`none` for an absent (`undefined`/`null`) patch; JS `!patch` is also true for
the empty string. -/
def PatchViewer (patch : Option String) : PatchView :=
  match patch with
  | none => PatchView.noPatch
  | some p =>
      if p = "" then PatchView.noPatch
      else PatchView.diffLines ((splitLines p).map (fun l => (l, classifyLine l)))

/-- The fields of a run result that the verified logic inspects. The
synthesized error result of `handleRun` is `{status: "error", detail: msg}`. -/
structure RunResult where
  status : String
  detail : String
  deriving DecidableEq

/-- Outcome of one HTTP fetch as the component code distinguishes them:
a rejected promise (network error), a response with `response.ok` false, or
an ok response carrying a parsed payload. -/
inductive FetchOutcome (α : Type) where
  | netError : FetchOutcome α
  | httpError : FetchOutcome α
  | ok : α → FetchOutcome α
  deriving DecidableEq

/-- View tabs of the `TaskDetail` component (`activeTab`). -/
inductive Tab where
  | details : Tab
  | result : Tab
  | report : Tab
  deriving DecidableEq

/-- State of the `TaskDetail` component: the `task.id` prop selected in `App`
plus the `result`, `reportText`, `running` and `activeTab` state hooks. -/
structure TDState where
  selectedId : String
  result : Option RunResult
  reportText : Option String
  running : Bool
  activeTab : Tab
  deriving DecidableEq

/-- Continuation of `fetchLatestResult` (TaskDetail.jsx lines 41-54) applied
to the outcome of `GET /results/{id}`: `setResult` fires only on an ok
response whose `result` field is non-null; every other outcome changes
nothing (the catch block only logs). -/
def fetchLatestResult (s : TDState) (resp : FetchOutcome (Option RunResult)) : TDState :=
  match resp with
  | FetchOutcome.ok (some r) => { s with result := some r }
  | FetchOutcome.ok none => s
  | FetchOutcome.httpError => s
  | FetchOutcome.netError => s

/-- Continuation of `fetchSummaryReport` (TaskDetail.jsx lines 56-68) applied
to the outcome of `GET /batch/report`: `setReportText` fires only on an ok
response whose `content` field is truthy. -/
def fetchSummaryReport (s : TDState) (resp : FetchOutcome (Option String)) : TDState :=
  match resp with
  | FetchOutcome.ok (some c) =>
      if jsTruthy c then { s with reportText := some c } else s
  | FetchOutcome.ok none => s
  | FetchOutcome.httpError => s
  | FetchOutcome.netError => s

/-- The effect on `task.id` (TaskDetail.jsx lines 70-76): `setResult(null)`,
`setActiveTab('details')`, then the two fetches are issued (fetch issuance is
tracked by the trace machine `tdStep` below). `reportText` is not touched. -/
def selectionEffect (s : TDState) (newId : String) : TDState :=
  { s with selectedId := newId, result := none, activeTab := Tab.details }

/-- Click on the `Result Analysis` tab button: `disabled={!result}`, so the
`setActiveTab('result')` handler runs only when a result is present. -/
def clickResultTab (s : TDState) : TDState :=
  if s.result.isSome then { s with activeTab := Tab.result } else s

/-- Click on the `Global Report` tab button: `disabled={!reportText}`. -/
def clickReportTab (s : TDState) : TDState :=
  if s.reportText.isSome then { s with activeTab := Tab.report } else s

/-- Click on the `Details` tab button (never disabled). -/
def clickDetailsTab (s : TDState) : TDState :=
  { s with activeTab := Tab.details }

/-- What the tab-content area renders, following the JSX guards
`activeTab === 'result' && result` and `activeTab === 'report' && reportText`
(TaskDetail.jsx lines 164-274). -/
inductive RenderedView where
  | detailsView : RenderedView
  | resultView : RunResult → RenderedView
  | reportView : String → RenderedView
  | emptyView : RenderedView
  deriving DecidableEq

/-- Content displayed for a given component state. -/
def renderedView (s : TDState) : RenderedView :=
  match s.activeTab with
  | Tab.details => RenderedView.detailsView
  | Tab.result =>
      match s.result with
      | some r => RenderedView.resultView r
      | none => RenderedView.emptyView
  | Tab.report =>
      match s.reportText with
      | some c => RenderedView.reportView c
      | none => RenderedView.emptyView

/-- Outcome of the `POST /run` trigger request as `handleRun` distinguishes
them; a network error carries the rejection message (`error.message`), while
a non-2xx response makes the handler throw `'Failed to run task'`. -/
inductive TriggerOutcome where
  | netError : String → TriggerOutcome
  | httpError : TriggerOutcome
  | ok : TriggerOutcome
  deriving DecidableEq

/-- The whole `handleRun` control flow (TaskDetail.jsx lines 85-111), given
the outcome of the trigger and, for the success branch, the outcomes of the
two awaited follow-up fetches. The boolean records whether the follow-up
fetches were attempted: on a trigger failure the `throw` jumps straight to
the catch block, which synthesizes the error result; the finally block
clears `running` on every path. -/
def handleRun (s : TDState) (trigger : TriggerOutcome)
    (resultResp : FetchOutcome (Option RunResult))
    (reportResp : FetchOutcome (Option String)) : TDState × Bool :=
  let s1 : TDState := { s with running := true, result := none, reportText := none }
  match trigger with
  | TriggerOutcome.netError msg =>
      ({ s1 with result := some ⟨"error", msg⟩, running := false }, false)
  | TriggerOutcome.httpError =>
      ({ s1 with result := some ⟨"error", "Failed to run task"⟩, running := false }, false)
  | TriggerOutcome.ok =>
      let s2 := fetchLatestResult s1 resultResp
      let s3 := fetchSummaryReport s2 reportResp
      ({ s3 with activeTab := Tab.result, running := false }, true)

/-- Events interleaving selection changes with the arrival of fetch
responses. A `resultArrives` event carries the task id that the resolving
fetch closure captured when it was issued. -/
inductive TDEvent where
  | select : String → TDEvent
  | resultArrives : String → FetchOutcome (Option RunResult) → TDEvent
  | reportArrives : FetchOutcome (Option String) → TDEvent
  deriving DecidableEq

/-- Component state paired with the captured task ids of the still
outstanding `GET /results/{id}` fetches, so that only fetches that were
actually issued can resolve. -/
structure SelTrace where
  view : TDState
  pendingResult : List String
  deriving DecidableEq

/-- One step of the selection/arrival interleaving. Selecting a task runs
the selection effect and issues a result fetch that captures the new id.
When a result fetch resolves, the code applies `fetchLatestResult`
unconditionally: nothing compares the captured id with the currently
selected id. -/
def tdStep (t : SelTrace) (e : TDEvent) : SelTrace :=
  match e with
  | TDEvent.select tid =>
      { view := selectionEffect t.view tid,
        pendingResult := t.pendingResult ++ [tid] }
  | TDEvent.resultArrives capturedId resp =>
      if capturedId ∈ t.pendingResult then
        { view := fetchLatestResult t.view resp,
          pendingResult := t.pendingResult.erase capturedId }
      else t
  | TDEvent.reportArrives resp =>
      { t with view := fetchSummaryReport t.view resp }

/-- Freshly mounted `TaskDetail` context before the first selection. -/
def tdInit : SelTrace :=
  ⟨⟨"", none, none, false, Tab.details⟩, []⟩

/-- Concrete non-null run result used in trace evaluations. -/
def resultA : RunResult := ⟨"Completed", ""⟩

/-- Interleaving in which task `A` is selected, then task `B`, and only then
does the result fetch issued under the selection of `A` resolve. -/
def c1FailTrace : List TDEvent :=
  [TDEvent.select "A", TDEvent.select "B",
   TDEvent.resultArrives "A" (FetchOutcome.ok (some resultA))]

/-- The batch status payload polled from `GET /batch/status`
(`is_running`, `processed`, `total`, `logs`). -/
structure BatchStatus where
  is_running : Bool
  processed : Nat
  total : Nat
  logs : List String
  deriving DecidableEq

/-- State of the `BatchControl` polling machinery: the last applied status
payload (`null` before the first successful fetch), the number of
`GET /batch/status` requests currently outstanding, and — as verification
instrumentation — the total number of such requests ever issued. -/
structure PollState where
  status : Option BatchStatus
  outstanding : Nat
  issued : Nat
  deriving DecidableEq

/-- JS `status?.is_running`: falsy when `status` is null. -/
def statusIsRunning (s : PollState) : Bool :=
  match s.status with
  | some st => st.is_running
  | none => false

/-- Events driving the polling machinery: a 2000 ms interval tick, and the
resolution of one outstanding status request (ok with a payload, or a
network/non-2xx failure, which the catch block only logs). -/
inductive PollEvent where
  | tick : PollEvent
  | resolveOk : BatchStatus → PollEvent
  | resolveFail : PollEvent
  deriving DecidableEq

/-- Issuance of one `fetchStatus()` call: the request goes out and is now
outstanding; nothing is awaited at the call site of the interval callback. -/
def fetchStatusIssue (s : PollState) : PollState :=
  { s with outstanding := s.outstanding + 1, issued := s.issued + 1 }

/-- One step of the `BatchControl` polling loop (BatchControl.jsx polling
effect plus the `fetchStatus` continuation). A tick runs
`if (status?.is_running) fetchStatus()` — it does not wait for any earlier
request to resolve. An ok resolution applies `setStatus(data)`
unconditionally; a failed resolution changes nothing. -/
def pollStep (s : PollState) (e : PollEvent) : PollState :=
  match e with
  | PollEvent.tick =>
      if statusIsRunning s then fetchStatusIssue s else s
  | PollEvent.resolveOk st =>
      if s.outstanding = 0 then s
      else { status := some st, outstanding := s.outstanding - 1, issued := s.issued }
  | PollEvent.resolveFail =>
      if s.outstanding = 0 then s
      else { s with outstanding := s.outstanding - 1 }

/-- PollState before the component's mount effect runs. -/
def pollInit : PollState := ⟨none, 0, 0⟩

/-- The tail of `handleStop` after an ok stop acknowledgment: `fetchStatus()`
is called, issuing one status request. -/
def handleStopOk (s : PollState) : PollState := fetchStatusIssue s

/-- The tail of `handleStart` after an ok start acknowledgment: likewise a
single `fetchStatus()` call. -/
def handleStartOk (s : PollState) : PollState := fetchStatusIssue s

/-- Busy-flag lifecycle of a single-task run: the `running` state hook and
the number of `POST /run` requests currently in flight (instrumentation). -/
structure RunState where
  running : Bool
  inFlight : Nat
  deriving DecidableEq

/-- Events of the run lifecycle: a click on the run button, and the
settlement (fulfilment or rejection) of an in-flight run request. -/
inductive RunEvent where
  | clickRun : RunEvent
  | runSettles : RunEvent
  deriving DecidableEq

/-- RunState on mount: not running, nothing in flight. -/
def runInit : RunState := ⟨false, 0⟩

/-- One step of the run lifecycle. The run button has `disabled={running}`,
so a click while running does nothing; otherwise `handleRun` sets the busy
flag and issues the trigger request. When the request settles, the finally
block clears the flag. -/
def runStep (s : RunState) (e : RunEvent) : RunState :=
  match e with
  | RunEvent.clickRun =>
      if s.running then s
      else { running := true, inFlight := s.inFlight + 1 }
  | RunEvent.runSettles =>
      if s.inFlight = 0 then s
      else { running := false, inFlight := s.inFlight - 1 }

/-- The invariant tying the busy flag to the in-flight count. -/
def runInv (s : RunState) : Prop := s.inFlight = cond s.running 1 0

/-- Concrete states used to instantiate the hypothesis-bearing theorems. -/
def tdIdleState : TDState := ⟨"t1", none, none, false, Tab.details⟩

/-- TaskDetail state showing the result tab of a completed run. -/
def tdResultState : TDState := ⟨"t1", some resultA, none, false, Tab.result⟩

/-- TaskDetail state showing the report tab. -/
def tdReportState : TDState := ⟨"t1", none, some "batch report", false, Tab.report⟩

/-- TaskDetail state of claim C4's counterexample: a prior task with a
displayed result and report. -/
def c4State : TDState := ⟨"A", some resultA, some "old report", false, Tab.report⟩

/-- Interleaving refuting polling termination, run from the mount fetch: the
mount fetch resolves with a running status; two interval ticks then overlap
(the first poll is slower than the 2000 ms interval), so two status requests
are outstanding; the later-issued poll resolves first, reporting
`is_running = false`; the stale earlier poll then resolves, still carrying
the running status computed before completion; the next tick issues a
further poll — with no start in the trace. -/
def c7FailTrace : List PollEvent :=
  [PollEvent.resolveOk ⟨true, 0, 10, []⟩, PollEvent.tick, PollEvent.tick,
   PollEvent.resolveOk ⟨false, 10, 10, []⟩, PollEvent.resolveOk ⟨true, 9, 10, []⟩,
   PollEvent.tick]

/-- Preservation of the busy-flag invariant by one run-lifecycle step. -/
theorem runStep_preserves_inv (s : RunState) (e : RunEvent) (h : runInv s) :
    runInv (runStep s e) := by
  cases e with
  | clickRun =>
      cases hr : s.running with
      | true => simpa [runStep, hr] using h
      | false =>
          simp only [runInv, hr, cond_false] at h
          simp [runStep, hr, runInv, h]
  | runSettles =>
      by_cases ho : s.inFlight = 0
      · simpa [runStep, ho] using h
      · simp only [runInv] at h
        simp only [runStep, ho, if_false, runInv, cond_false]
        cases hr : s.running <;> rw [hr] at h <;> simp at h <;> omega

/-- The busy-flag invariant holds along every event trace from the mount
state. -/
theorem runFold_inv (es : List RunEvent) :
    ∀ s : RunState, runInv s → runInv (List.foldl runStep s es) := by
  induction es with
  | nil => intro s h; exact h
  | cons e es ih => intro s h; exact ih (runStep s e) (runStep_preserves_inv s e h)

/-- Claim C1 (code bug): in the interleaving where task `A` is selected, then
task `B`, and only then does the result fetch issued under the selection of
`A` resolve (with a non-null payload), the payload is NOT discarded: the
final state has task `B` selected while the displayed result is the payload
delivered by the fetch that captured task id `A`. The arrival handler in
`fetchLatestResult` never compares the captured id with the current
selection. -/
theorem c1_stale_result_displayed :
    (List.foldl tdStep tdInit c1FailTrace).view.selectedId = "B"
  ∧ (List.foldl tdStep tdInit c1FailTrace).view.result = some resultA
  ∧ (List.foldl tdStep tdInit c1FailTrace).pendingResult = ["B"] := by decide

/-- Claim C2 (code bug): the polling interval issues `fetchStatus()` on every
tick while `is_running` is true without awaiting the previous request, so
after two ticks with no intervening resolution two status requests are
outstanding simultaneously. The trace starts from the mount fetch resolving
with a running status. -/
theorem c2_overlapping_polls :
    (List.foldl pollStep (fetchStatusIssue pollInit)
      [PollEvent.resolveOk ⟨true, 0, 10, []⟩, PollEvent.tick, PollEvent.tick]).outstanding = 2 := by
  decide

/-- Claim C3: when the `POST /run` trigger fails — network error with message
`msg`, or a non-2xx response (which makes the handler throw
`'Failed to run task'`) — `handleRun` displays a synthesized result with
status `"error"` and detail set to the failure message, does not attempt the
follow-up result/report fetches, and clears the busy flag. -/
theorem c3_trigger_failure_synthesizes_error :
    ∀ (s : TDState) (msg : String) (rr : FetchOutcome (Option RunResult))
      (pr : FetchOutcome (Option String)),
      (handleRun s (TriggerOutcome.netError msg) rr pr).1.result = some ⟨"error", msg⟩
    ∧ (handleRun s (TriggerOutcome.netError msg) rr pr).2 = false
    ∧ (handleRun s (TriggerOutcome.netError msg) rr pr).1.running = false
    ∧ (handleRun s TriggerOutcome.httpError rr pr).1.result =
        some ⟨"error", "Failed to run task"⟩
    ∧ (handleRun s TriggerOutcome.httpError rr pr).2 = false := by
  intro s msg rr pr
  exact ⟨rfl, rfl, rfl, rfl, rfl⟩

/-- Claim C4, counterexample: the selection effect does not clear the
previously displayed report text — selecting task `B` from a state that
displays a report for task `A` leaves `reportText` untouched, refuting the
claim that both the RunResult and the ReportText are cleared. -/
theorem c4_report_not_cleared :
    (selectionEffect c4State "B").reportText = some "old report"
  ∧ ¬ (selectionEffect c4State "B").reportText = none := by decide

/-- Claim C4 (amended): on every selection change the selection effect clears
the previously displayed RunResult, resets the view to the details tab, sets
the new task id and issues a result fetch capturing it, while the previously
displayed ReportText is left in place (it is only overwritten by a
successful refresh). -/
theorem c4_selection_clears_result :
    ∀ (t : SelTrace) (tid : String),
      (tdStep t (TDEvent.select tid)).view.result = none
    ∧ (tdStep t (TDEvent.select tid)).view.activeTab = Tab.details
    ∧ (tdStep t (TDEvent.select tid)).view.selectedId = tid
    ∧ (tdStep t (TDEvent.select tid)).view.reportText = t.view.reportText
    ∧ (tdStep t (TDEvent.select tid)).pendingResult = t.pendingResult ++ [tid] := by
  intro t tid
  exact ⟨rfl, rfl, rfl, rfl, rfl⟩

/-- Claim C5: the diff classifier applies the precedence order `@@` header,
then `+++`/`---` file-header, then `+` add, then `-` remove, then context;
in particular `"+++ b/file"` is a file-header and never an add, and the
scenario patch classifies as header, remove, add, context in order. -/
theorem c5_classification_precedence :
    (∀ l : String, strStartsWith l "@@" = true → classifyLine l = LineKind.header)
  ∧ (∀ l : String, strStartsWith l "@@" = false →
        (strStartsWith l "+++" || strStartsWith l "---") = true →
        classifyLine l = LineKind.fileHeader)
  ∧ (∀ l : String, strStartsWith l "@@" = false →
        (strStartsWith l "+++" || strStartsWith l "---") = false →
        strStartsWith l "+" = true → classifyLine l = LineKind.add)
  ∧ (∀ l : String, strStartsWith l "@@" = false →
        (strStartsWith l "+++" || strStartsWith l "---") = false →
        strStartsWith l "+" = false → strStartsWith l "-" = true →
        classifyLine l = LineKind.remove)
  ∧ (∀ l : String, strStartsWith l "@@" = false →
        (strStartsWith l "+++" || strStartsWith l "---") = false →
        strStartsWith l "+" = false → strStartsWith l "-" = false →
        classifyLine l = LineKind.context)
  ∧ classifyLine "+++ b/file" = LineKind.fileHeader
  ∧ (splitLines "@@ -1,2 +1,2 @@\n-old\n+new\n context").map classifyLine =
      [LineKind.header, LineKind.remove, LineKind.add, LineKind.context] := by
  refine ⟨?_, ?_, ?_, ?_, ?_, by decide, by decide⟩
  · intro l h1
    simp [classifyLine, h1]
  · intro l h1 h2
    simp [classifyLine, h1, h2]
  · intro l h1 h2 h3
    simp [classifyLine, h1, h2, h3]
  · intro l h1 h2 h3 h4
    simp [classifyLine, h1, h2, h3, h4]
  · intro l h1 h2 h3 h4
    simp [classifyLine, h1, h2, h3, h4]

/-- Claim C5, witness instantiating each precedence case at a concrete
line. -/
theorem c5_classification_precedence_witness :
    classifyLine "@@ -1,2 +1,2 @@" = LineKind.header
  ∧ classifyLine "--- a/file" = LineKind.fileHeader
  ∧ classifyLine "+new" = LineKind.add
  ∧ classifyLine "-old" = LineKind.remove
  ∧ classifyLine " context" = LineKind.context :=
  ⟨c5_classification_precedence.1 "@@ -1,2 +1,2 @@" (by decide),
   c5_classification_precedence.2.1 "--- a/file" (by decide) (by decide),
   c5_classification_precedence.2.2.1 "+new" (by decide) (by decide) (by decide),
   c5_classification_precedence.2.2.2.1 "-old" (by decide) (by decide) (by decide) (by decide),
   c5_classification_precedence.2.2.2.2.1 " context" (by decide) (by decide) (by decide) (by decide)⟩

/-- Claim C6: the diff classifier is total on absent and empty input — both
an absent (`undefined`/`null`) patch and the empty string yield the
`"No patch generated"` sentinel, and the sentinel is produced exactly for
those two inputs, so callers can distinguish "no diff" from a produced
diff. -/
theorem c6_no_patch_sentinel :
    PatchViewer none = PatchView.noPatch
  ∧ PatchViewer (some "") = PatchView.noPatch
  ∧ (∀ p : Option String,
      PatchViewer p = PatchView.noPatch ↔ (p = none ∨ p = some "")) := by
  refine ⟨rfl, by decide, ?_⟩
  intro p
  cases p with
  | none => simp [PatchViewer]
  | some s =>
      by_cases hs : s = ""
      · subst hs; simp [PatchViewer]
      · simp [PatchViewer, hs]

/-- Claim C8: the result and report views require their backing data —
clicking a disabled tab button is a no-op, the rendered view can only be the
result (resp. report) view when the result (resp. report text) is present,
and a `{result: null}` response leaves the result absent, so the result tab
stays disabled. -/
theorem c8_views_need_backing_data :
    (∀ s : TDState, s.result = none → clickResultTab s = s)
  ∧ (∀ s : TDState, s.reportText = none → clickReportTab s = s)
  ∧ (∀ (s : TDState) (r : RunResult),
      renderedView s = RenderedView.resultView r → s.result = some r)
  ∧ (∀ (s : TDState) (c : String),
      renderedView s = RenderedView.reportView c → s.reportText = some c)
  ∧ (∀ s : TDState, s.result = none →
      (fetchLatestResult s (FetchOutcome.ok none)).result = none) := by
  refine ⟨?_, ?_, ?_, ?_, ?_⟩
  · intro s h
    simp [clickResultTab, h]
  · intro s h
    simp [clickReportTab, h]
  · intro s r h
    obtain ⟨sid, res, rep, rn, tab⟩ := s
    cases tab <;> cases res <;> cases rep <;> simp_all [renderedView]
  · intro s c h
    obtain ⟨sid, res, rep, rn, tab⟩ := s
    cases tab <;> cases res <;> cases rep <;> simp_all [renderedView]
  · intro s h
    simpa [fetchLatestResult] using h

/-- Claim C8, witness: the no-op clicks and the null-result response at
concrete states, and the rendered-view implications at states actually
showing a result and a report. -/
theorem c8_views_need_backing_data_witness :
    clickResultTab tdIdleState = tdIdleState
  ∧ clickReportTab tdIdleState = tdIdleState
  ∧ tdResultState.result = some resultA
  ∧ tdReportState.reportText = some "batch report"
  ∧ (fetchLatestResult tdIdleState (FetchOutcome.ok none)).result = none :=
  ⟨c8_views_need_backing_data.1 tdIdleState rfl,
   c8_views_need_backing_data.2.1 tdIdleState rfl,
   c8_views_need_backing_data.2.2.1 tdResultState resultA rfl,
   c8_views_need_backing_data.2.2.2.1 tdReportState "batch report" rfl,
   c8_views_need_backing_data.2.2.2.2 tdIdleState rfl⟩

/-- Claim C9: at most one run is in flight per component instance — along
every event trace from mount the in-flight count never exceeds one, the busy
flag is set exactly while a run is in flight, and a click on the (disabled)
run button while running is a no-op. -/
theorem c9_at_most_one_run_in_flight :
    (∀ es : List RunEvent, (List.foldl runStep runInit es).inFlight ≤ 1)
  ∧ (∀ es : List RunEvent,
      (List.foldl runStep runInit es).running = true ↔
      (List.foldl runStep runInit es).inFlight = 1)
  ∧ (∀ s : RunState, s.running = true → runStep s RunEvent.clickRun = s) := by
  have hinv : ∀ es : List RunEvent, runInv (List.foldl runStep runInit es) :=
    fun es => runFold_inv es runInit rfl
  refine ⟨?_, ?_, ?_⟩
  · intro es
    have h := hinv es
    unfold runInv at h
    cases hr : (List.foldl runStep runInit es).running <;> rw [hr] at h <;> simp at h <;> omega
  · intro es
    have h := hinv es
    unfold runInv at h
    cases hr : (List.foldl runStep runInit es).running <;> rw [hr] at h <;> simp at h <;>
      simp [h]
  · intro s h
    simp [runStep, h]

/-- Claim C9, witness: the run button click is a no-op in the busy state. -/
theorem c9_at_most_one_run_in_flight_witness :
    runStep ⟨true, 1⟩ RunEvent.clickRun = ⟨true, 1⟩ :=
  c9_at_most_one_run_in_flight.2.2 ⟨true, 1⟩ rfl

/-- Claim C10: a failed or null result fetch and a failed or contentless
report fetch leave the component state entirely unchanged; only an ok
response with a non-null result (resp. truthy content) overwrites the
displayed value. -/
theorem c10_failed_fetches_preserve_state :
    ∀ s : TDState,
      fetchLatestResult s FetchOutcome.netError = s
    ∧ fetchLatestResult s FetchOutcome.httpError = s
    ∧ fetchLatestResult s (FetchOutcome.ok none) = s
    ∧ (∀ r : RunResult, (fetchLatestResult s (FetchOutcome.ok (some r))).result = some r)
    ∧ fetchSummaryReport s FetchOutcome.netError = s
    ∧ fetchSummaryReport s FetchOutcome.httpError = s
    ∧ fetchSummaryReport s (FetchOutcome.ok none) = s
    ∧ fetchSummaryReport s (FetchOutcome.ok (some "")) = s
    ∧ (∀ c : String, jsTruthy c = true →
        (fetchSummaryReport s (FetchOutcome.ok (some c))).reportText = some c) := by
  intro s
  refine ⟨rfl, rfl, rfl, fun r => rfl, rfl, rfl, rfl, by simp [fetchSummaryReport, jsTruthy], ?_⟩
  intro c hc
  simp [fetchSummaryReport, hc]

/-- Claim C10, witness: a truthy report payload is applied at a concrete
state. -/
theorem c10_failed_fetches_preserve_state_witness :
    (fetchSummaryReport tdIdleState (FetchOutcome.ok (some "new report"))).reportText =
      some "new report" :=
  (c10_failed_fetches_preserve_state tdIdleState).2.2.2.2.2.2.2.2 "new report" (by decide)

/-- Claim C7 (code bug): after the first four events of `c7FailTrace` a
status poll has returned and applied `is_running = false` (three requests
issued so far), yet by the end of the trace — the stale overlapping poll
resolving with its pre-completion running status, then one interval tick,
with no start anywhere — a fourth status request has been issued. The code
re-applies the stale running status via `setStatus` and the next tick calls
`fetchStatus()` again, so polling does not cease once a poll has returned
`is_running = false`, contradicting the claim. -/
theorem c7_poll_issued_after_not_running :
    statusIsRunning
      (List.foldl pollStep (fetchStatusIssue pollInit) (List.take 4 c7FailTrace)) = false
  ∧ (List.foldl pollStep (fetchStatusIssue pollInit) (List.take 4 c7FailTrace)).issued = 3
  ∧ (List.foldl pollStep (fetchStatusIssue pollInit) c7FailTrace).issued = 4 := by
  decide

end NCB
